import Mathlib

/-!
Shallow embedding of `botree`'s EC2 wrapper (`src/botree/ec2.py`) and proofs
of its specified behaviour.

The provider clients (EC2 / CloudWatch) are modelled as function-valued
fields: a call is an application of the corresponding field.  Each embedded
method additionally returns the ordered list of provider requests it issued,
so that claims about which requests are (not) sent can be stated.  Fallible
paths (Python exceptions, including `IndexError` from `[0]` on an empty
list) are returned through `Except`.  Metric values are modelled as `ℚ`;
Python's `round(x, 2)` is modelled as round-half-to-even at two decimals.
-/

namespace Botree

/-- An element of the `Filters` argument of `describe_instances`:
`{"Name": ..., "Values": [...]}`. -/
structure AwsFilter where
  name : String
  values : List String
deriving DecidableEq

/-- A `{"Key": ..., "Value": ...}` tag of an instance. -/
structure Tag where
  key : String
  value : String
deriving DecidableEq

/-- The `{"Name": ...}` state object (`State` / `CurrentState`). -/
structure InstanceState where
  name : String
deriving DecidableEq

/-- One instance record of a `describe_instances` response.  `Tags` is read
in the source only through `instance.get("Tags", [])`, so a missing key is
indistinguishable from `[]` and is modelled as `[]`. -/
structure Instance where
  instanceId : String
  tags : List Tag
  state : InstanceState
deriving DecidableEq

/-- One reservation grouping of a `describe_instances` response. -/
structure Reservation where
  instances : List Instance
deriving DecidableEq

/-- One element of `StoppingInstances` / `StartingInstances` in a
`stop_instances` / `start_instances` response. -/
structure StateChange where
  currentState : InstanceState
deriving DecidableEq

/-- One element of `Datapoints` in a `get_metric_statistics` response.  The
`Average` field may be absent (the source reads it with
`point.get("Average", 0)`), hence `Option`. -/
structure Datapoint where
  average : Option ℚ
deriving DecidableEq

/-- A provider request issued by a method, in issue order. -/
inductive Event where
  | describe (filters : List AwsFilter)
  | stopReq (instanceIds : List String)
  | startReq (instanceIds : List String)
  | metricsReq (instanceId : String)
deriving DecidableEq

/-- A raised Python exception: `IndexError` from `[0]` on an empty list, or
`Exception(msg)`. -/
inductive Err where
  | indexError
  | exc (msg : String)
deriving DecidableEq

/-- The EC2 client: responses of the three consumed calls, as functions of
the request arguments. -/
structure EC2Client where
  describeInstances : List AwsFilter → List Reservation
  stopInstances : List String → List StateChange
  startInstances : List String → List StateChange

/-- The CloudWatch client.  `get_metric_statistics` is always called by the
source with fixed `Namespace="AWS/EC2"`, `MetricName="CPUUtilization"`,
`Period=300`, `Statistics=["Average"]` and the trailing 5-minute window, so
only the varying `InstanceId` dimension is kept as an argument; the response
is its `Datapoints` list (read with `.get("Datapoints", [])`). -/
structure CloudWatchClient where
  getMetricStatistics : String → List Datapoint

/-- The authenticated session: yields a client per service name. -/
structure Session where
  ec2Service : EC2Client
  cloudwatchService : CloudWatchClient

/-- The `EC2` component: the session and the two clients obtained from it
in `__init__`. -/
structure EC2 where
  session : Session
  ec2_client : EC2Client
  cw_client : CloudWatchClient

/-- `EC2.__init__`: store the session and derive both clients from it. -/
def EC2.init (session : Session) : EC2 :=
  { session := session
    ec2_client := session.ec2Service
    cw_client := session.cloudwatchService }

/-- Python truthiness of the optional `instance_name` argument: `None` and
`""` are falsy. -/
def truthy : Option String → Bool
  | some s => s != ""
  | none => false

/-- The `filters` list each method builds: `[]`, plus a `tag:Name` entry
when `instance_name` is truthy. -/
def filtersFor : Option String → List AwsFilter
  | some n => if n != "" then [{ name := "tag:Name", values := [n] }] else []
  | none => []

/-- `EC2.get_instance_id`: one `describe_instances` call, then the nested
`for reservation / for instance` loop appending each `InstanceId`. -/
def EC2.get_instance_id (self : EC2) (instance_name : Option String) :
    List String × List Event :=
  let filters := filtersFor instance_name
  let instances := self.ec2_client.describeInstances filters
  let instance_ids := instances.foldl
    (fun acc reservation =>
      reservation.instances.foldl
        (fun acc2 inst => acc2 ++ [inst.instanceId]) acc)
    []
  (instance_ids, [Event.describe filters])

/-- `EC2.stop_instance`: take `[0]` of the resolved ids (raising
`IndexError` when empty), issue `stop_instances`, read
`["StoppingInstances"][0]["CurrentState"]["Name"]`, and raise on every
branch exactly as the source does. -/
def EC2.stop_instance (self : EC2) (instance_name : String) :
    Except Err Unit × List Event :=
  let resolved := self.get_instance_id (some instance_name)
  match resolved.1 with
  | [] => (Except.error Err.indexError, resolved.2)
  | instance_id :: _ =>
    let response := self.ec2_client.stopInstances [instance_id]
    let events := resolved.2 ++ [Event.stopReq [instance_id]]
    match response with
    | [] => (Except.error Err.indexError, events)
    | change :: _ =>
      let status := change.currentState.name
      if status = "stopped" ∨ status = "stopping" then
        (Except.error (Err.exc
            ("Instance " ++ instance_name ++ " is already " ++ status ++ ".")),
          events)
      else
        (Except.error (Err.exc ("Failed to stop instance " ++ instance_name)),
          events)

/-- `EC2.start_instance`: take `[0]` of the resolved ids, issue
`start_instances`, read the returned state; raise on `"running"`, raise on
anything other than `"pending"`, return silently on `"pending"`. -/
def EC2.start_instance (self : EC2) (instance_name : String) :
    Except Err Unit × List Event :=
  let resolved := self.get_instance_id (some instance_name)
  match resolved.1 with
  | [] => (Except.error Err.indexError, resolved.2)
  | instance_id :: _ =>
    let response := self.ec2_client.startInstances [instance_id]
    let events := resolved.2 ++ [Event.startReq [instance_id]]
    match response with
    | [] => (Except.error Err.indexError, events)
    | change :: _ =>
      let status := change.currentState.name
      if status = "running" then
        (Except.error (Err.exc
            ("Instance " ++ instance_name ++ " is already running.")),
          events)
      else if status ≠ "pending" then
        (Except.error (Err.exc
            ("Failed to start instance " ++ instance_name ++ ".")),
          events)
      else
        (Except.ok (), events)

/-- The `next((tag["Value"] for tag in instance.get("Tags", []) if
tag["Key"] == "Name"), "N/A")` expression: value of the first `Name` tag,
defaulting to `"N/A"`. -/
def nameTagOf (inst : Instance) : String :=
  match inst.tags.find? (fun tag => tag.key == "Name") with
  | some tag => tag.value
  | none => "N/A"

/-- One record of `get_instance_status`. -/
structure StatusRecord where
  instance_name : String
  instance_id : String
  instance_status : String
deriving DecidableEq

/-- `EC2.get_instance_status`: one describe call, then the nested loop
appending one record per instance. -/
def EC2.get_instance_status (self : EC2) (instance_name : Option String) :
    List StatusRecord × List Event :=
  let filters := filtersFor instance_name
  let instances := self.ec2_client.describeInstances filters
  let instance_statuses := instances.foldl
    (fun acc reservation =>
      reservation.instances.foldl
        (fun acc2 inst =>
          acc2 ++ [{ instance_name := nameTagOf inst
                     instance_id := inst.instanceId
                     instance_status := inst.state.name }])
        acc)
    []
  (instance_statuses, [Event.describe filters])

/-- Round-half-to-even to an integer, as Python's bankers rounding. -/
def roundHalfToEven (x : ℚ) : ℤ :=
  if x - ⌊x⌋ < 1 / 2 then ⌊x⌋
  else if 1 / 2 < x - ⌊x⌋ then ⌊x⌋ + 1
  else if ⌊x⌋ % 2 = 0 then ⌊x⌋ else ⌊x⌋ + 1

/-- Python's `round(x, 2)`. -/
def round2 (x : ℚ) : ℚ := (roundHalfToEven (x * 100) : ℚ) / 100

/-- The `average_cpu_utilization` expression of the source:
`round(sum(point.get("Average", 0) for point in datapoints) /
len(datapoints), 2) if datapoints else 0`. -/
def averageCpu (datapoints : List Datapoint) : ℚ :=
  if datapoints.isEmpty then 0
  else
    round2 ((datapoints.map (fun point => point.average.getD 0)).sum /
      (datapoints.length : ℚ))

/-- One record of `get_instance_cpu_usage`. -/
structure CpuRecord where
  instance_name : String
  instance_id : String
  average_cpu_utilization : ℚ
deriving DecidableEq

/-- The inner `for instance in reservation.get("Instances", [])` loop body
of `get_instance_cpu_usage`.  The second component threads the method's
`instance_name` local variable, which the loop REBINDS to the processed
instance's `Name` tag value; the third collects the metric requests
issued. -/
def EC2.cpuInstLoop (self : EC2) :
    List Instance → Option String →
    List CpuRecord × Option String × List Event
  | [], current_name => ([], current_name, [])
  | inst :: rest, _current_name =>
    let datapoints := self.cw_client.getMetricStatistics inst.instanceId
    let average_cpu_utilization := averageCpu datapoints
    let tag_name := nameTagOf inst
    let triple := self.cpuInstLoop rest (some tag_name)
    ({ instance_name := tag_name
       instance_id := inst.instanceId
       average_cpu_utilization := average_cpu_utilization } :: triple.1,
      triple.2.1,
      Event.metricsReq inst.instanceId :: triple.2.2)

/-- The outer `for reservation in instances["Reservations"]` loop of
`get_instance_cpu_usage`, threading the same rebindable local. -/
def EC2.cpuResLoop (self : EC2) :
    List Reservation → Option String →
    List CpuRecord × Option String × List Event
  | [], current_name => ([], current_name, [])
  | reservation :: rest, current_name =>
    let head := self.cpuInstLoop reservation.instances current_name
    let tail := self.cpuResLoop rest head.2.1
    (head.1 ++ tail.1, tail.2.1, head.2.2 ++ tail.2.2)

/-- `EC2.get_instance_cpu_usage`: one describe call, the nested loop, then
the final `if instance_name and not instance_statuses: raise ...` check on
the (possibly rebound) `instance_name` local. -/
def EC2.get_instance_cpu_usage (self : EC2) (instance_name : Option String) :
    Except Err (List CpuRecord) × List Event :=
  let filters := filtersFor instance_name
  let instances := self.ec2_client.describeInstances filters
  let looped := self.cpuResLoop instances instance_name
  let instance_statuses := looped.1
  let final_name := looped.2.1
  let events := Event.describe filters :: looped.2.2
  if truthy final_name && instance_statuses.isEmpty then
    (Except.error (Err.exc
        ("No instances found with the name " ++ final_name.getD "" ++ ".")),
      events)
  else
    (Except.ok instance_statuses, events)

/-- A public operation of the component, for sequencing claims. -/
inductive Op where
  | getId (instance_name : Option String)
  | stop (instance_name : String)
  | start (instance_name : String)
  | status (instance_name : Option String)
  | cpu (instance_name : Option String)

/-- The value a public operation returns (or the exception it raises),
together with the requests it issued. -/
inductive OpResult where
  | idsRes (ids : List String) (events : List Event)
  | mutationRes (r : Except Err Unit) (events : List Event)
  | statusRes (records : List StatusRecord) (events : List Event)
  | cpuRes (r : Except Err (List CpuRecord)) (events : List Event)

/-- Run one public operation: the component state after the call (no method
body assigns to `self`, so it is the input state) and the outcome. -/
def runOp (e : EC2) : Op → EC2 × OpResult
  | Op.getId nm => (e, OpResult.idsRes (e.get_instance_id nm).1 (e.get_instance_id nm).2)
  | Op.stop n => (e, OpResult.mutationRes (e.stop_instance n).1 (e.stop_instance n).2)
  | Op.start n => (e, OpResult.mutationRes (e.start_instance n).1 (e.start_instance n).2)
  | Op.status nm => (e, OpResult.statusRes (e.get_instance_status nm).1 (e.get_instance_status nm).2)
  | Op.cpu nm => (e, OpResult.cpuRes (e.get_instance_cpu_usage nm).1 (e.get_instance_cpu_usage nm).2)

/-- The component state left behind by a sequence of public operations. -/
def runOps (e : EC2) (ops : List Op) : EC2 :=
  ops.foldl (fun st op => (runOp st op).1) e

/-- Case-insensitive view of a string, as a character list. -/
def lowerData (s : String) : List Char := s.data.map Char.toLower

/-- `containsSubList sub l`: `sub` occurs as a contiguous run inside `l`. -/
def containsSubList (sub : List Char) : List Char → Bool
  | [] => sub.isEmpty
  | c :: rest => sub.isPrefixOf (c :: rest) || containsSubList sub rest

/-- Case-insensitive "message contains phrase". -/
def msgHas (msg phrase : String) : Bool :=
  containsSubList (lowerData phrase) (lowerData msg)

lemma isPrefixOf_self_append (l t : List Char) : l.isPrefixOf (l ++ t) = true := by
  induction l with
  | nil => simp
  | cons c rest ih => simp [List.isPrefixOf, ih]

lemma containsSubList_self_append (sub post : List Char) :
    containsSubList sub (sub ++ post) = true := by
  cases sub with
  | nil =>
    cases post with
    | nil => rfl
    | cons c rest => simp [containsSubList, List.isPrefixOf]
  | cons c rest =>
    simp only [containsSubList, List.cons_append, Bool.or_eq_true]
    exact Or.inl (isPrefixOf_self_append (c :: rest) post)

lemma containsSubList_append_left (sub pre l : List Char)
    (h : containsSubList sub l = true) :
    containsSubList sub (pre ++ l) = true := by
  induction pre with
  | nil => simpa using h
  | cons c rest ih =>
    simp only [containsSubList, List.cons_append, Bool.or_eq_true]
    exact Or.inr ih

/-- The phrase occurs (case-insensitively) whenever the lowered message
splits around the lowered phrase. -/
lemma msgHas_of_split (msg phrase : String) (pre post : List Char)
    (h : lowerData msg = pre ++ (lowerData phrase ++ post)) :
    msgHas msg phrase = true := by
  unfold msgHas
  rw [h]
  exact containsSubList_append_left _ _ _ (containsSubList_self_append _ _)

lemma lowerData_append (a b : String) :
    lowerData (a ++ b) = lowerData a ++ lowerData b := by
  simp [lowerData, String.data_append]

lemma foldl_push_eq_map {α β : Type} (f : α → β) (l : List α) (acc : List β) :
    l.foldl (fun a x => a ++ [f x]) acc = acc ++ l.map f := by
  induction l generalizing acc with
  | nil => simp
  | cons x rest ih => simp [ih]

lemma foldl_nested_eq_flatMap {α β γ : Type} (g : α → List β) (f : β → γ)
    (rs : List α) (acc : List γ) :
    rs.foldl (fun acc1 r => (g r).foldl (fun a i => a ++ [f i]) acc1) acc
      = acc ++ rs.flatMap (fun r => (g r).map f) := by
  induction rs generalizing acc with
  | nil => simp
  | cons r rest ih =>
    rw [List.foldl_cons, foldl_push_eq_map, ih]
    simp [List.append_assoc]

lemma get_instance_id_eq_flatMap (e : EC2) (nm : Option String) :
    (e.get_instance_id nm).1 =
      (e.ec2_client.describeInstances (filtersFor nm)).flatMap
        (fun reservation => reservation.instances.map Instance.instanceId) := by
  unfold EC2.get_instance_id
  simpa using
    foldl_nested_eq_flatMap Reservation.instances Instance.instanceId
      (e.ec2_client.describeInstances (filtersFor nm)) []

lemma get_instance_id_events (e : EC2) (nm : Option String) :
    (e.get_instance_id nm).2 = [Event.describe (filtersFor nm)] := rfl

/-- Claim C5: `get_instance_id` issues exactly one describe call, carrying a
`tag:Name` filter exactly when a (truthy) name is provided; it returns the
flattening of the two-level reservation/instance grouping into the flat,
order-preserving sequence of instance ids, raising nothing (in particular
not on zero matches, where the flattening is `[]`). -/
theorem get_instance_id_spec (e : EC2) (nm : Option String) :
    (e.get_instance_id nm).2 = [Event.describe (filtersFor nm)] ∧
    (e.get_instance_id nm).1 =
      (e.ec2_client.describeInstances (filtersFor nm)).flatMap
        (fun reservation => reservation.instances.map Instance.instanceId) ∧
    (truthy nm = true →
      ∃ n, nm = some n ∧ filtersFor nm = [{ name := "tag:Name", values := [n] }]) ∧
    (truthy nm = false → filtersFor nm = []) := by
  refine ⟨get_instance_id_events e nm, get_instance_id_eq_flatMap e nm, ?_, ?_⟩
  · intro ht
    cases nm with
    | none => simp [truthy] at ht
    | some n =>
      refine ⟨n, rfl, ?_⟩
      simp only [truthy] at ht
      simp [filtersFor, ht]
  · intro hf
    cases nm with
    | none => rfl
    | some n =>
      simp only [truthy] at hf
      simp [filtersFor, hf]

lemma nameTagOf_eq (inst : Instance) :
    nameTagOf inst =
      ((inst.tags.find? (fun tag => tag.key == "Name")).map Tag.value).getD "N/A" := by
  unfold nameTagOf
  cases h : inst.tags.find? (fun tag => tag.key == "Name") <;> simp [h]

/-- Claim C7: `get_instance_status` returns one record per instance of the
describe response, in provider order: status is the instance's `State.Name`
and name is its first `Name` tag's value, defaulting to `"N/A"` when
absent; the result is a total list (no raise), empty exactly when the
flattened response is. -/
theorem get_instance_status_spec (e : EC2) (nm : Option String) :
    (e.get_instance_status nm).1 =
      (e.ec2_client.describeInstances (filtersFor nm)).flatMap
        (fun reservation => reservation.instances.map (fun inst =>
          { instance_name :=
              ((inst.tags.find? (fun tag => tag.key == "Name")).map Tag.value).getD "N/A"
            instance_id := inst.instanceId
            instance_status := inst.state.name })) ∧
    (e.get_instance_status nm).1.length =
      ((e.ec2_client.describeInstances (filtersFor nm)).flatMap
        (fun reservation => reservation.instances)).length := by
  have hmain : (e.get_instance_status nm).1 =
      (e.ec2_client.describeInstances (filtersFor nm)).flatMap
        (fun reservation => reservation.instances.map (fun inst =>
          { instance_name :=
              ((inst.tags.find? (fun tag => tag.key == "Name")).map Tag.value).getD "N/A"
            instance_id := inst.instanceId
            instance_status := inst.state.name })) := by
    unfold EC2.get_instance_status
    have := foldl_nested_eq_flatMap Reservation.instances
      (fun inst : Instance =>
        ({ instance_name := nameTagOf inst
           instance_id := inst.instanceId
           instance_status := inst.state.name } : StatusRecord))
      (e.ec2_client.describeInstances (filtersFor nm)) []
    simp only [List.nil_append] at this
    simp only [this]
    simp [nameTagOf_eq]
  refine ⟨hmain, ?_⟩
  rw [hmain]
  simp [List.length_flatMap, Function.comp_def, List.length_map]

/-- Claim C8: `get_instance_id` is deterministic in its input: identical
describe responses for the same filter argument yield identical ordered
results (and identical issued requests). -/
theorem get_instance_id_deterministic (e₁ e₂ : EC2) (nm : Option String)
    (h : e₁.ec2_client.describeInstances (filtersFor nm) =
      e₂.ec2_client.describeInstances (filtersFor nm)) :
    e₁.get_instance_id nm = e₂.get_instance_id nm := by
  have h1 : (e₁.get_instance_id nm).1 = (e₂.get_instance_id nm).1 := by
    rw [get_instance_id_eq_flatMap, get_instance_id_eq_flatMap, h]
  have h2 : (e₁.get_instance_id nm).2 = (e₂.get_instance_id nm).2 := by
    rw [get_instance_id_events, get_instance_id_events]
  exact Prod.ext h1 h2

/-- Claim C9: no public operation mutates the component: any sequence of
operations leaves the component state (session and both client fields)
unchanged, and the outcome of an operation does not depend on the
operations run before it. -/
theorem ops_stateless (e : EC2) (ops : List Op) (op : Op) :
    runOps e ops = e ∧
    (runOps e ops).session = e.session ∧
    (runOps e ops).ec2_client = e.ec2_client ∧
    (runOps e ops).cw_client = e.cw_client ∧
    (runOp (runOps e ops) op).2 = (runOp e op).2 := by
  have hrun : runOps e ops = e := by
    induction ops with
    | nil => rfl
    | cons o rest ih =>
      have hstep : (runOp e o).1 = e := by cases o <;> rfl
      show runOps ((runOp e o).1) rest = e
      rw [hstep]
      exact ih
  exact ⟨hrun, by rw [hrun], by rw [hrun], by rw [hrun], by rw [hrun]⟩

lemma msgHas_already (n status : String) :
    msgHas ("Instance " ++ n ++ " is already " ++ status ++ ".")
      ("already " ++ status) = true := by
  refine msgHas_of_split _ _
    (lowerData "Instance " ++ lowerData n ++ (" is ").data) (".").data ?_
  simp only [lowerData_append]
  have h1 : lowerData " is already " = (" is ").data ++ lowerData "already " := by decide
  have h2 : lowerData "." = (".").data := by decide
  rw [h1, h2]
  simp [List.append_assoc]

lemma msgHas_failed_stop (n : String) :
    msgHas ("Failed to stop instance " ++ n) "failed to stop" = true := by
  refine msgHas_of_split _ _ [] ((" instance ").data ++ lowerData n) ?_
  simp only [lowerData_append]
  have h1 : lowerData "Failed to stop instance " =
      lowerData "failed to stop" ++ (" instance ").data := by decide
  rw [h1]
  simp [List.append_assoc]

lemma msgHas_already_running (n : String) :
    msgHas ("Instance " ++ n ++ " is already running.") "already running" = true := by
  refine msgHas_of_split _ _
    (lowerData "Instance " ++ lowerData n ++ (" is ").data) (".").data ?_
  simp only [lowerData_append]
  have h1 : lowerData " is already running." =
      (" is ").data ++ (lowerData "already running" ++ (".").data) := by decide
  rw [h1]
  simp [List.append_assoc]

lemma msgHas_failed_start (n : String) :
    msgHas ("Failed to start instance " ++ n ++ ".") "failed to start" = true := by
  refine msgHas_of_split _ _ []
    ((" instance ").data ++ (lowerData n ++ (".").data)) ?_
  simp only [lowerData_append]
  have h1 : lowerData "Failed to start instance " =
      lowerData "failed to start" ++ (" instance ").data := by decide
  have h2 : lowerData "." = (".").data := by decide
  rw [h1, h2]
  simp [List.append_assoc]

lemma msgHas_no_instances (n : String) :
    msgHas ("No instances found with the name " ++ n ++ ".")
      ("no instances found with the name " ++ n) = true := by
  refine msgHas_of_split _ _ [] (".").data ?_
  simp only [lowerData_append]
  have h1 : lowerData "No instances found with the name " =
      lowerData "no instances found with the name " := by decide
  have h2 : lowerData "." = (".").data := by decide
  rw [h1, h2]
  simp [List.append_assoc]

/-- Claim C6: for both mutation methods, a name resolving to zero instances
fails with the index-out-of-range error having issued only the describe
request (no stop/start request); a name resolving to one or more instances
issues the stop/start request with exactly the first resolved identifier
and no other request. -/
theorem mutation_zero_or_first_id (e : EC2) (n : String) :
    ((e.get_instance_id (some n)).1 = [] →
      e.stop_instance n =
        (Except.error Err.indexError, [Event.describe (filtersFor (some n))]) ∧
      e.start_instance n =
        (Except.error Err.indexError, [Event.describe (filtersFor (some n))])) ∧
    (∀ id0 t, (e.get_instance_id (some n)).1 = id0 :: t →
      (e.stop_instance n).2 =
        [Event.describe (filtersFor (some n)), Event.stopReq [id0]] ∧
      (e.start_instance n).2 =
        [Event.describe (filtersFor (some n)), Event.startReq [id0]]) := by
  constructor
  · intro h
    constructor
    · simp [EC2.stop_instance, h, get_instance_id_events]
    · simp [EC2.start_instance, h, get_instance_id_events]
  · intro id0 t h
    constructor
    · cases hr : e.ec2_client.stopInstances [id0] with
      | nil => simp [EC2.stop_instance, h, hr, get_instance_id_events]
      | cons c rest =>
        simp only [EC2.stop_instance, h, hr, get_instance_id_events]
        split <;> rfl
    · cases hr : e.ec2_client.startInstances [id0] with
      | nil => simp [EC2.start_instance, h, hr, get_instance_id_events]
      | cons c rest =>
        simp only [EC2.start_instance, h, hr, get_instance_id_events]
        split <;> first | rfl | (split <;> rfl)

/-- Claim C1: for a name resolving to at least one instance (and a stop
response carrying a state), `stop_instance` raises on every state: for
`"stopped"`/`"stopping"` the message is `Instance <n> is already <state>.`,
containing "already <state>"; for every other state the message is
`Failed to stop instance <n>`, containing (case-insensitively)
"failed to stop".  No state value yields a normal return. -/
theorem stop_instance_always_raises (e : EC2) (n id0 : String) (t : List String)
    (hres : (e.get_instance_id (some n)).1 = id0 :: t)
    (c : StateChange) (rest : List StateChange)
    (hresp : e.ec2_client.stopInstances [id0] = c :: rest) :
    ∃ msg, (e.stop_instance n).1 = Except.error (Err.exc msg) ∧
      ((c.currentState.name = "stopped" ∨ c.currentState.name = "stopping") →
        msg = "Instance " ++ n ++ " is already " ++ c.currentState.name ++ "." ∧
        msgHas msg ("already " ++ c.currentState.name) = true) ∧
      (¬(c.currentState.name = "stopped" ∨ c.currentState.name = "stopping") →
        msg = "Failed to stop instance " ++ n ∧
        msgHas msg "failed to stop" = true) := by
  by_cases hc : c.currentState.name = "stopped" ∨ c.currentState.name = "stopping"
  · refine ⟨"Instance " ++ n ++ " is already " ++ c.currentState.name ++ ".", ?_, ?_, ?_⟩
    · simp [EC2.stop_instance, hres, hresp, hc]
    · intro _
      exact ⟨rfl, msgHas_already n c.currentState.name⟩
    · intro h
      exact absurd hc h
  · refine ⟨"Failed to stop instance " ++ n, ?_, ?_, ?_⟩
    · simp [EC2.stop_instance, hres, hresp, hc]
    · intro h
      exact absurd h hc
    · intro _
      exact ⟨rfl, msgHas_failed_stop n⟩

/-- Claim C2: for a name resolving to at least one instance (and a start
response carrying a state), `start_instance` returns silently exactly when
the returned state is `"pending"`; on `"running"` it raises
`Instance <n> is already running.`, containing "already running"; on any
other state it raises `Failed to start instance <n>.`, containing
(case-insensitively) "failed to start". -/
theorem start_instance_state_semantics (e : EC2) (n id0 : String) (t : List String)
    (hres : (e.get_instance_id (some n)).1 = id0 :: t)
    (c : StateChange) (rest : List StateChange)
    (hresp : e.ec2_client.startInstances [id0] = c :: rest) :
    ((e.start_instance n).1 = Except.ok () ↔ c.currentState.name = "pending") ∧
    (c.currentState.name = "running" →
      (e.start_instance n).1 = Except.error (Err.exc
        ("Instance " ++ n ++ " is already running.")) ∧
      msgHas ("Instance " ++ n ++ " is already running.") "already running" = true) ∧
    (c.currentState.name ≠ "running" → c.currentState.name ≠ "pending" →
      (e.start_instance n).1 = Except.error (Err.exc
        ("Failed to start instance " ++ n ++ ".")) ∧
      msgHas ("Failed to start instance " ++ n ++ ".") "failed to start" = true) := by
  refine ⟨?_, ?_, ?_⟩
  · constructor
    · intro hok
      by_contra hpend
      by_cases hrun : c.currentState.name = "running"
      · simp [EC2.start_instance, hres, hresp, hrun] at hok
      · simp [EC2.start_instance, hres, hresp, hrun, hpend] at hok
    · intro hpend
      have hrun : c.currentState.name ≠ "running" := by
        rw [hpend]; decide
      simp [EC2.start_instance, hres, hresp, hrun, hpend]
  · intro hrun
    exact ⟨by simp [EC2.start_instance, hres, hresp, hrun], msgHas_already_running n⟩
  · intro hrun hpend
    exact ⟨by simp [EC2.start_instance, hres, hresp, hrun, hpend], msgHas_failed_start n⟩

/-- A one-instance world: instance `i-1` tagged `Name=web` in state
`running`; stop/start responses and CloudWatch datapoints as given. -/
def sampleEC2 (stopState startState : String) (dps : List Datapoint) : EC2 :=
  EC2.init
    { ec2Service :=
        { describeInstances := fun _ =>
            [{ instances :=
                [{ instanceId := "i-1"
                   tags := [{ key := "Name", value := "web" }]
                   state := { name := "running" } }] }]
          stopInstances := fun _ => [{ currentState := { name := stopState } }]
          startInstances := fun _ => [{ currentState := { name := startState } }] }
      cloudwatchService := { getMetricStatistics := fun _ => dps } }

/-- A world whose describe call matches no instances. -/
def emptyEC2 : EC2 :=
  EC2.init
    { ec2Service :=
        { describeInstances := fun _ => []
          stopInstances := fun _ => []
          startInstances := fun _ => [] }
      cloudwatchService := { getMetricStatistics := fun _ => [] } }

/-- Witness for C1 at a concrete input: one instance named `web`, stop
response state `stopped`. -/
theorem stop_instance_always_raises_witness :
    ∃ msg, ((sampleEC2 "stopped" "pending" []).stop_instance "web").1 =
        Except.error (Err.exc msg) ∧
      msg = "Instance web is already stopped." ∧
      msgHas msg "already stopped" = true := by
  obtain ⟨msg, h1, h2, h3⟩ :=
    stop_instance_always_raises (sampleEC2 "stopped" "pending" []) "web" "i-1" []
      rfl { currentState := { name := "stopped" } } [] rfl
  obtain ⟨hmsg, hhas⟩ := h2 (Or.inl rfl)
  exact ⟨msg, h1, hmsg, hhas⟩

/-- Witness for C2 at concrete inputs: start response state `pending` gives
a silent return; state `running` raises. -/
theorem start_instance_state_semantics_witness :
    ((sampleEC2 "stopped" "pending" []).start_instance "web").1 = Except.ok () ∧
    ((sampleEC2 "stopped" "running" []).start_instance "web").1 =
      Except.error (Err.exc "Instance web is already running.") := by
  constructor
  · obtain ⟨hiff, _, _⟩ :=
      start_instance_state_semantics (sampleEC2 "stopped" "pending" []) "web" "i-1" []
        rfl { currentState := { name := "pending" } } [] rfl
    exact hiff.mpr rfl
  · obtain ⟨_, h2, _⟩ :=
      start_instance_state_semantics (sampleEC2 "stopped" "running" []) "web" "i-1" []
        rfl { currentState := { name := "running" } } [] rfl
    exact (h2 rfl).1

/-- Witness for C6 at concrete inputs: zero resolved instances give the
index error with only the describe request; one resolved instance gives a
stop request carrying exactly its identifier. -/
theorem mutation_zero_or_first_id_witness :
    emptyEC2.stop_instance "web" =
      (Except.error Err.indexError, [Event.describe (filtersFor (some "web"))]) ∧
    ((sampleEC2 "stopped" "pending" []).stop_instance "web").2 =
      [Event.describe (filtersFor (some "web")), Event.stopReq ["i-1"]] := by
  constructor
  · exact ((mutation_zero_or_first_id emptyEC2 "web").1 rfl).1
  · exact (((mutation_zero_or_first_id (sampleEC2 "stopped" "pending" []) "web").2
      "i-1" [] rfl)).1

/-- Witness for C8 at concrete inputs: two worlds differing only in their
stop/start responses, with identical describe responses, give identical
results. -/
theorem get_instance_id_deterministic_witness :
    (sampleEC2 "stopped" "pending" []).get_instance_id (some "web") =
      (sampleEC2 "running" "running" []).get_instance_id (some "web") :=
  get_instance_id_deterministic (sampleEC2 "stopped" "pending" [])
    (sampleEC2 "running" "running" []) (some "web") rfl

/-- Witness for C5 at a concrete input: the truthy-name hypotheses hold at
`some "web"`. -/
theorem get_instance_id_spec_witness :
    ((sampleEC2 "stopped" "pending" []).get_instance_id (some "web")).2 =
      [Event.describe (filtersFor (some "web"))] ∧
    truthy (some "web") = true ∧
    (∃ n, (some "web" : Option String) = some n ∧
      filtersFor (some "web") = [{ name := "tag:Name", values := [n] }]) := by
  obtain ⟨h1, _, h3, _⟩ :=
    get_instance_id_spec (sampleEC2 "stopped" "pending" []) (some "web")
  exact ⟨h1, rfl, h3 rfl⟩

/-- The record `get_instance_cpu_usage` builds for one instance. -/
def cpuRecordOf (e : EC2) (inst : Instance) : CpuRecord :=
  { instance_name := nameTagOf inst
    instance_id := inst.instanceId
    average_cpu_utilization :=
      averageCpu (e.cw_client.getMetricStatistics inst.instanceId) }

lemma cpuInstLoop_records (e : EC2) (l : List Instance) (nm : Option String) :
    (e.cpuInstLoop l nm).1 = l.map (cpuRecordOf e) := by
  induction l generalizing nm with
  | nil => rfl
  | cons i rest ih => simp [EC2.cpuInstLoop, cpuRecordOf, ih]

lemma cpuResLoop_records (e : EC2) (rs : List Reservation) (nm : Option String) :
    (e.cpuResLoop rs nm).1 =
      rs.flatMap (fun reservation => reservation.instances.map (cpuRecordOf e)) := by
  induction rs generalizing nm with
  | nil => rfl
  | cons r rest ih => simp [EC2.cpuResLoop, cpuInstLoop_records, ih]

lemma cpuResLoop_name_of_empty (e : EC2) :
    ∀ (rs : List Reservation) (nm : Option String),
      rs.flatMap Reservation.instances = [] → (e.cpuResLoop rs nm).2.1 = nm := by
  intro rs
  induction rs with
  | nil => intro nm _; rfl
  | cons r rest ih =>
    intro nm h
    rw [List.flatMap_cons] at h
    obtain ⟨h1, h2⟩ := List.append_eq_nil.mp h
    show (e.cpuResLoop (r :: rest) nm).2.1 = nm
    simp only [EC2.cpuResLoop, h1, EC2.cpuInstLoop]
    exact ih nm h2

/-- The body of `get_instance_cpu_usage`, written out. -/
lemma cpu_usage_def (e : EC2) (nm : Option String) :
    e.get_instance_cpu_usage nm =
      (if truthy (e.cpuResLoop (e.ec2_client.describeInstances (filtersFor nm)) nm).2.1 &&
          ((e.cpuResLoop (e.ec2_client.describeInstances (filtersFor nm)) nm).1).isEmpty then
        (Except.error (Err.exc ("No instances found with the name " ++
            ((e.cpuResLoop (e.ec2_client.describeInstances (filtersFor nm)) nm).2.1).getD ""
            ++ ".")),
          Event.describe (filtersFor nm) ::
            (e.cpuResLoop (e.ec2_client.describeInstances (filtersFor nm)) nm).2.2)
      else
        (Except.ok (e.cpuResLoop (e.ec2_client.describeInstances (filtersFor nm)) nm).1,
          Event.describe (filtersFor nm) ::
            (e.cpuResLoop (e.ec2_client.describeInstances (filtersFor nm)) nm).2.2)) := rfl

lemma cpu_records_length (e : EC2) (nm : Option String) :
    (e.cpuResLoop (e.ec2_client.describeInstances (filtersFor nm)) nm).1.length =
      ((e.ec2_client.describeInstances (filtersFor nm)).flatMap
        Reservation.instances).length := by
  rw [cpuResLoop_records]
  simp [List.length_flatMap, Function.comp_def, List.length_map]

/-- Claim C4: `get_instance_cpu_usage` raises
`No instances found with the name <n>.` exactly when a (truthy) name filter
was supplied and the describe response flattens to zero instances; with no
name filter the (possibly empty) record list is returned silently. -/
theorem cpu_usage_empty_named_raise (e : EC2) (nm : Option String) :
    (∀ n, nm = some n → n ≠ "" →
      (e.ec2_client.describeInstances (filtersFor nm)).flatMap Reservation.instances = [] →
      (e.get_instance_cpu_usage nm).1 =
        Except.error (Err.exc ("No instances found with the name " ++ n ++ ".")) ∧
      msgHas ("No instances found with the name " ++ n ++ ".")
        ("no instances found with the name " ++ n) = true) ∧
    ((e.ec2_client.describeInstances (filtersFor nm)).flatMap Reservation.instances ≠ [] →
      (e.get_instance_cpu_usage nm).1 =
        Except.ok ((e.cpuResLoop (e.ec2_client.describeInstances (filtersFor nm)) nm).1)) ∧
    (truthy nm = false →
      (e.get_instance_cpu_usage nm).1 =
        Except.ok ((e.ec2_client.describeInstances (filtersFor nm)).flatMap
          (fun reservation => reservation.instances.map (cpuRecordOf e)))) := by
  refine ⟨?_, ?_, ?_⟩
  · intro n hnm hne hflat
    subst hnm
    have hrecords :
        (e.cpuResLoop (e.ec2_client.describeInstances (filtersFor (some n))) (some n)).1
          = [] := by
      have := cpu_records_length e (some n)
      rw [hflat] at this
      exact List.length_eq_zero.mp (by simpa using this)
    have hname :
        (e.cpuResLoop (e.ec2_client.describeInstances (filtersFor (some n))) (some n)).2.1
          = some n :=
      cpuResLoop_name_of_empty e _ _ hflat
    constructor
    · rw [cpu_usage_def]
      rw [hname, hrecords]
      have ht : truthy (some n) = true := by simp [truthy, hne]
      simp [ht]
    · exact msgHas_no_instances n
  · intro hflat
    cases hrec :
        (e.cpuResLoop (e.ec2_client.describeInstances (filtersFor nm)) nm).1 with
    | nil =>
      exfalso
      apply hflat
      have := cpu_records_length e nm
      rw [hrec] at this
      exact List.length_eq_zero.mp (by simpa using this.symm)
    | cons r rest =>
      rw [cpu_usage_def]
      rw [hrec]
      simp
  · intro hf
    cases hrec :
        (e.cpuResLoop (e.ec2_client.describeInstances (filtersFor nm)) nm).1 with
    | nil =>
      have hflat :
          (e.ec2_client.describeInstances (filtersFor nm)).flatMap Reservation.instances
            = [] := by
        have := cpu_records_length e nm
        rw [hrec] at this
        exact List.length_eq_zero.mp (by simpa using this.symm)
      have hname :
          (e.cpuResLoop (e.ec2_client.describeInstances (filtersFor nm)) nm).2.1 = nm :=
        cpuResLoop_name_of_empty e _ _ hflat
      rw [cpu_usage_def, hname, hrec]
      have hrs := cpuResLoop_records e (e.ec2_client.describeInstances (filtersFor nm)) nm
      rw [hrec] at hrs
      simp [hf, ← hrs]
    | cons r rest =>
      rw [cpu_usage_def, hrec]
      have hrs := cpuResLoop_records e (e.ec2_client.describeInstances (filtersFor nm)) nm
      rw [hrec] at hrs
      simp [← hrs]

/-- Any record of a successful `get_instance_cpu_usage` result carries the
`averageCpu` of the CloudWatch response for its own instance id. -/
lemma cpu_record_avg (e : EC2) (nm : Option String) (rs : List CpuRecord)
    (h : (e.get_instance_cpu_usage nm).1 = Except.ok rs)
    (r : CpuRecord) (hr : r ∈ rs) :
    r.average_cpu_utilization =
      averageCpu (e.cw_client.getMetricStatistics r.instance_id) := by
  have hrs : rs =
      (e.cpuResLoop (e.ec2_client.describeInstances (filtersFor nm)) nm).1 := by
    rw [cpu_usage_def] at h
    split at h
    · simp at h
    · simpa using h.symm
  rw [hrs, cpuResLoop_records] at hr
  obtain ⟨reservation, _, hr2⟩ := List.mem_flatMap.mp hr
  obtain ⟨inst, _, hinst⟩ := List.mem_map.mp hr2
  subst hinst
  rfl

/-- Claim C3: every reported record's `average_cpu_utilization` is exactly
`0` when the metrics query returned zero datapoints, and the arithmetic
mean of the `Average` fields across all returned datapoints rounded to two
decimals otherwise. -/
theorem cpu_usage_average_spec (e : EC2) (nm : Option String)
    (rs : List CpuRecord) (h : (e.get_instance_cpu_usage nm).1 = Except.ok rs)
    (r : CpuRecord) (hr : r ∈ rs) :
    (e.cw_client.getMetricStatistics r.instance_id = [] →
      r.average_cpu_utilization = 0) ∧
    (e.cw_client.getMetricStatistics r.instance_id ≠ [] →
      r.average_cpu_utilization =
        round2 (((e.cw_client.getMetricStatistics r.instance_id).map
            (fun point => point.average.getD 0)).sum /
          ((e.cw_client.getMetricStatistics r.instance_id).length : ℚ))) := by
  have havg := cpu_record_avg e nm rs h r hr
  constructor
  · intro hdp
    rw [havg, hdp]
    rfl
  · intro hdp
    rw [havg]
    unfold averageCpu
    rw [if_neg (by simpa [List.isEmpty_iff] using hdp)]

lemma sum_getD_eq_sum_filterMap (dps : List Datapoint) :
    (dps.map (fun point => point.average.getD 0)).sum =
      (dps.filterMap Datapoint.average).sum := by
  induction dps with
  | nil => rfl
  | cons p rest ih => cases hp : p.average <;> simp [hp, ih]

/-- Claim C10: a datapoint lacking the `Average` field contributes `0` to
the numerator while still counting in the denominator: for a non-empty
datapoint list the reported value is the sum of the present `Average`
values divided by the total number of datapoints, rounded to two decimals,
with no error raised. -/
theorem cpu_missing_average_semantics (e : EC2) (nm : Option String)
    (rs : List CpuRecord) (h : (e.get_instance_cpu_usage nm).1 = Except.ok rs)
    (r : CpuRecord) (hr : r ∈ rs)
    (hdp : e.cw_client.getMetricStatistics r.instance_id ≠ []) :
    r.average_cpu_utilization =
      round2 (((e.cw_client.getMetricStatistics r.instance_id).filterMap
          Datapoint.average).sum /
        ((e.cw_client.getMetricStatistics r.instance_id).length : ℚ)) := by
  have havg := cpu_record_avg e nm rs h r hr
  rw [havg]
  unfold averageCpu
  rw [if_neg (by simpa [List.isEmpty_iff] using hdp), sum_getD_eq_sum_filterMap]

/-- Concrete world for the C3 witness: datapoints with averages 40 and 60. -/
def cpuSample : EC2 :=
  sampleEC2 "stopped" "pending" [{ average := some 40 }, { average := some 60 }]

/-- The single record `cpuSample` yields. -/
def cpuSampleRecord : CpuRecord :=
  { instance_name := "web"
    instance_id := "i-1"
    average_cpu_utilization :=
      averageCpu [{ average := some 40 }, { average := some 60 }] }

/-- Witness for C3 at a concrete input: datapoints `[40, 60]` are reported
as their mean rounded to two decimals, `50`. -/
theorem cpu_usage_average_spec_witness :
    (cpuSample.get_instance_cpu_usage (some "web")).1 = Except.ok [cpuSampleRecord] ∧
    cpuSampleRecord.average_cpu_utilization =
      round2 (((cpuSample.cw_client.getMetricStatistics "i-1").map
          (fun point => point.average.getD 0)).sum /
        ((cpuSample.cw_client.getMetricStatistics "i-1").length : ℚ)) ∧
    cpuSampleRecord.average_cpu_utilization = 50 := by
  have hok : (cpuSample.get_instance_cpu_usage (some "web")).1 =
      Except.ok [cpuSampleRecord] := rfl
  refine ⟨hok, ?_, ?_⟩
  · exact (cpu_usage_average_spec cpuSample (some "web") [cpuSampleRecord] hok
      cpuSampleRecord (by simp)).2 (List.cons_ne_nil _ _)
  · show averageCpu [{ average := some 40 }, { average := some 60 }] = 50
    norm_num [averageCpu, round2, roundHalfToEven]

/-- Concrete world for the C10 witness: one datapoint with average 30 and
one lacking the `Average` field. -/
def cpuMissSample : EC2 :=
  sampleEC2 "stopped" "pending" [{ average := some 30 }, { average := none }]

/-- The single record `cpuMissSample` yields. -/
def cpuMissRecord : CpuRecord :=
  { instance_name := "web"
    instance_id := "i-1"
    average_cpu_utilization :=
      averageCpu [{ average := some 30 }, { average := none }] }

/-- Witness for C10 at a concrete input: datapoints `[30, missing]` are
reported as `30 / 2 = 15`. -/
theorem cpu_missing_average_semantics_witness :
    (cpuMissSample.get_instance_cpu_usage (some "web")).1 = Except.ok [cpuMissRecord] ∧
    cpuMissRecord.average_cpu_utilization =
      round2 (((cpuMissSample.cw_client.getMetricStatistics "i-1").filterMap
          Datapoint.average).sum /
        ((cpuMissSample.cw_client.getMetricStatistics "i-1").length : ℚ)) ∧
    cpuMissRecord.average_cpu_utilization = 15 := by
  have hok : (cpuMissSample.get_instance_cpu_usage (some "web")).1 =
      Except.ok [cpuMissRecord] := rfl
  refine ⟨hok, ?_, ?_⟩
  · exact cpu_missing_average_semantics cpuMissSample (some "web") [cpuMissRecord] hok
      cpuMissRecord (by simp) (List.cons_ne_nil _ _)
  · show averageCpu [{ average := some 30 }, { average := none }] = 15
    norm_num [averageCpu, round2, roundHalfToEven]

/-- Witness for C4 at concrete inputs: a supplied name matching zero
instances raises the exact message; no supplied name returns `[]`
silently. -/
theorem cpu_usage_empty_named_raise_witness :
    (emptyEC2.get_instance_cpu_usage (some "web")).1 =
      Except.error (Err.exc "No instances found with the name web.") ∧
    msgHas "No instances found with the name web."
      "no instances found with the name web" = true ∧
    (emptyEC2.get_instance_cpu_usage none).1 = Except.ok [] := by
  obtain ⟨h1, _, _⟩ := cpu_usage_empty_named_raise emptyEC2 (some "web")
  obtain ⟨ha, hb⟩ := h1 "web" rfl (by decide) rfl
  obtain ⟨_, _, h3⟩ := cpu_usage_empty_named_raise emptyEC2 none
  exact ⟨ha, hb, h3 rfl⟩

end Botree
